import Mathlib

/-!
Verification of the cheat-sheet PDF generators.

This file gives a shallow embedding of the table-building, text-escaping and
story-assembly logic shared by the generator scripts
(git_cheat_sheet_generator.py, laravel_cheat_sheet_generator.py,
flexbox_cheat_sheet_generator.py, docker_cheat_sheet_generator.py), and proves
or refutes the specification's claims about them.

Modelling conventions:
the `story` list built by each generator is a `List StoryElem`; a reportlab
`Paragraph` cell is represented by the markup string handed to it; page-geometry
lengths are exact rationals in points (reportlab sets one inch to 72 points and
one centimetre to an inch divided by 2.54); `html.escape` (with its default
`quote=True`) is the per-character expansion `escapeChar`, which equals the
source's sequential `str.replace` calls because the ampersand pass runs first.
-/

namespace CheatSheets

/-- The single-quote character (U+0027), written via its code point. -/
def apos : Char := Char.ofNat 39

/-- The single quote as a one-character string, used by the font markup. -/
def aposStr : String := String.singleton apos

/-- The markup wrapper all generators produce for a label cell: the f-string
interpolation of a font tag naming Courier-Bold and a color around the text. -/
def fontWrap (color txt : String) : String :=
  "<font name=" ++ aposStr ++ "Courier-Bold" ++ aposStr ++ " color=" ++ aposStr
    ++ color ++ aposStr ++ ">" ++ txt ++ "</font>"

/-- Whether `n` is a leading segment of `h` (helper for substring search). -/
def startsWithList : List Char → List Char → Bool
  | [], _ => true
  | _ :: _, [] => false
  | a :: as, b :: bs => a = b && startsWithList as bs

/-- Python's substring containment test, as used by `danger in cmd`. -/
def containsSub : List Char → List Char → Bool
  | n, [] => n.isEmpty
  | n, c :: cs => startsWithList n (c :: cs) || containsSub n cs

/-- Per-character expansion performed by Python's `html.escape` with
`quote=True`: ampersand, angle brackets and both quote characters become
entities; every other character is kept. -/
def escapeChar (c : Char) : List Char :=
  if c = '&' then "&amp;".data
  else if c = '<' then "&lt;".data
  else if c = '>' then "&gt;".data
  else if c = '"' then "&quot;".data
  else if c = apos then "&#x27;".data
  else [c]

/-- Python's `html.escape` with `quote=True`, as called in
LaravelCheatSheetPDF.create_command_table (lines 95-96). -/
def htmlEscape (s : String) : String :=
  String.mk (s.data.flatMap escapeChar)

/-- The characters `html.escape` rewrites (markup-significant characters). -/
def specialChar (c : Char) : Bool :=
  c = '&' || c = '<' || c = '>' || c = '"' || c = apos

/-- True when a character is none of the raw markup delimiters
(angle brackets and quotes); `htmlEscape` output consists of such characters
and ampersands introduced by entities. -/
def noMarkup (c : Char) : Bool :=
  !(c = '<' || c = '>' || c = '"' || c = apos)

/-- One centimetre in points, per reportlab.lib.units (inch = 72). -/
def cmPt : ℚ := 72 / 2.54

/-- A4 page width in points (210 mm), per reportlab.lib.pagesizes. -/
def A4width : ℚ := 21 * cmPt

/-- One flowable appended to a generator's `self.story`. A table carries its
cell markup strings, its column widths and its `repeatRows` argument (the
number of leading rows declared as repeating header rows). -/
inductive StoryElem where
  | paragraph (style : String) (text : String)
  | table (data : List (List String)) (colWidths : List ℚ) (repeatRows : Nat)
  | spacer
  | pageBreak
  deriving DecidableEq

/-- Row color selection in GitCheatSheetPDF.create_command_table (line 77):
the warning red when some dangerous command occurs inside the label, the
default orange otherwise. -/
def gitRowColor (dangerousCommands : List String) (cmd : String) : String :=
  if dangerousCommands.any (fun danger => containsSub danger.data cmd.data) then "#E74C3C"
  else "#FF6B35"

/-- The label-cell markup for one git row (line 79); the raw command text is
interpolated without escaping. -/
def gitCell (dangerousCommands : List String) (cmd : String) : String :=
  fontWrap (gitRowColor dangerousCommands cmd) cmd

/-- Table data built by GitCheatSheetPDF.create_command_table (lines 74-81):
one two-cell row per (command, description) pair, no header row. -/
def gitTableData (dangerousCommands : List String)
    (commands : List (String × String)) : List (List String) :=
  commands.map (fun r => [gitCell dangerousCommands r.1, r.2])

/-- Default col_widths of GitCheatSheetPDF.create_command_table (line 65). -/
def gitDefaultColWidths : List ℚ := [7 * cmPt, 8 * cmPt]

/-- GitCheatSheetPDF.create_command_table (lines 65-103): appends the section
heading paragraph, the command table (repeatRows = 0) and a spacer. -/
def gitCreateCommandTable (story : List StoryElem) (title : String)
    (commands : List (String × String)) (colWidths : List ℚ)
    (dangerousCommands : List String) : List StoryElem :=
  story ++
    [StoryElem.paragraph "SectionHeader" title,
     StoryElem.table (gitTableData dangerousCommands commands) colWidths 0,
     StoryElem.spacer]

/-- Default column widths computed by LaravelCheatSheetPDF.create_command_table
(lines 79-83): the page width minus both margins, split 60 percent for the
command column and 40 percent for the description column. -/
def laravelDefaultColWidths : List ℚ :=
  let availableWidth := A4width - 2 * cmPt
  [availableWidth * 0.6, availableWidth * 0.4]

/-- A Laravel row: the source iterates over items that are either
(command, description, color) triples or (command, description) pairs. -/
inductive LRow where
  | two (cmd desc : String)
  | three (cmd desc color : String)
  deriving DecidableEq

/-- The cell pair for one Laravel row
(LaravelCheatSheetPDF.create_command_table lines 87-101): unpack the tuple,
defaulting the color to the blue #3498DB for pairs, escape both texts, and
wrap the command in the font markup. -/
def laravelCells (r : LRow) : List String :=
  match r with
  | LRow.three cmd desc color =>
      [fontWrap color (htmlEscape cmd), htmlEscape desc]
  | LRow.two cmd desc =>
      [fontWrap "#3498DB" (htmlEscape cmd), htmlEscape desc]

/-- The (command, description, color) triple a Laravel row denotes, with the
default blue filled in for pairs. -/
def lrowTriple : LRow → String × String × String
  | LRow.two cmd desc => (cmd, desc, "#3498DB")
  | LRow.three cmd desc color => (cmd, desc, color)

/-- Cell pair as a function of the (command, description, color) triple
alone, used to state that `laravelCells` depends on nothing else. -/
def cellsOfTriple (t : String × String × String) : List String :=
  [fontWrap t.2.2 (htmlEscape t.1), htmlEscape t.2.1]

/-- Table data of LaravelCheatSheetPDF.create_command_table: one row of cells
per item, no header row. -/
def laravelTableData (rows : List LRow) : List (List String) :=
  rows.map laravelCells

/-- LaravelCheatSheetPDF.create_command_table (lines 70-123): appends the
section heading, the table (repeatRows = 0) and a spacer. -/
def laravelCreateCommandTable (story : List StoryElem) (title : String)
    (rows : List LRow) (colWidths : List ℚ) : List StoryElem :=
  story ++
    [StoryElem.paragraph "SectionHeader" title,
     StoryElem.table (laravelTableData rows) colWidths 0,
     StoryElem.spacer]

/-- hexval() of HexColor(0xDC2626), the css color of the flexbox generator,
as reportlab prints it (lowercase, 0x prefixed). -/
def flexboxCssColor : String := "0xdc2626"

/-- hexval() of HexColor(0x7C3AED), the tailwind color of the flexbox
generator. -/
def flexboxTailwindColor : String := "0x7c3aed"

/-- The literal header row of create_comparison_table (line 80). -/
def flexboxHeaderRow : List String := ["CSS Property", "Tailwind Class", "Description"]

/-- The three cells of one comparison row (lines 82-86); the css and tailwind
texts are wrapped in font markup, the description is passed as is. -/
def flexboxRow (p : String × String × String) : List String :=
  [fontWrap flexboxCssColor p.1, fontWrap flexboxTailwindColor p.2.1, p.2.2]

/-- Table data of FlexboxCheatSheetPDF.create_comparison_table (lines 79-86):
the header row followed by one row per property triple. -/
def flexboxTableData (properties : List (String × String × String)) :
    List (List String) :=
  flexboxHeaderRow :: properties.map flexboxRow

/-- The fixed column widths of create_comparison_table (line 89). -/
def flexboxColWidths : List ℚ := [6 * cmPt, 5 * cmPt, 6 * cmPt]

/-- FlexboxCheatSheetPDF.create_comparison_table (lines 74-111): appends the
section heading, the comparison table (repeatRows = 1, declaring its first
row as a repeating header) and a spacer. -/
def flexboxCreateComparisonTable (story : List StoryElem) (title : String)
    (properties : List (String × String × String)) : List StoryElem :=
  story ++
    [StoryElem.paragraph "SectionHeader" title,
     StoryElem.table (flexboxTableData properties) flexboxColWidths 1,
     StoryElem.spacer]

/-- Outcome of the work attempted inside main's try block: the build
succeeded yielding the output file, or it raised an ImportError, or it raised
some other exception. -/
inductive GenResult where
  | ok (filename : String)
  | libError (msg : String)
  | otherError (msg : String)
  deriving DecidableEq

/-- Lines printed by the `except ImportError` handler of main
(git generator lines 396-400). -/
def libErrorLines (e : String) : List String :=
  ["❌ Required library not found!",
   "📦 Install required packages with:",
   "   pip install reportlab",
   "Error details: " ++ e]

/-- Lines printed on the success path of generate_pdf and main (lines
371, 383-385). The file-size and timestamp values come from the operating
system and are abstracted as placeholder text; no claim depends on them. -/
def successLines (f : String) : List String :=
  ["✅ Git Cheat Sheet PDF generated successfully: " ++ f,
   "🌿 Git Cheat Sheet PDF created: " ++ f,
   "📄 File size: <size> bytes",
   "📅 Created: <timestamp>"]

/-- The try/except dispatch of main (git generator lines 374-402): the lines
printed and the output file produced (none when an exception aborts the
build). There is exactly one attempt; no branch retries. -/
def runMain : GenResult → List String × Option String
  | GenResult.ok f => (successLines f, some f)
  | GenResult.libError e => (libErrorLines e, none)
  | GenResult.otherError e => (["❌ Error generating PDF: " ++ e], none)

/-- Whether the reportlab package is importable in the running environment. -/
inductive LibState where
  | available
  | missing
  deriving DecidableEq

/-- Whole-script behaviour under CPython module semantics: the reportlab
imports at the top of the module (git generator lines 7-14) execute before
main is defined or called, so when reportlab is missing the interpreter exits
with an uncaught ImportError traceback and main's handlers never run; only
when the library is available does main's try/except dispatch apply. -/
def programRun (lib : LibState) (g : GenResult) : List String × Option String :=
  match lib with
  | LibState.missing =>
      (["Traceback (most recent call last):",
        "ModuleNotFoundError: No module named " ++ aposStr ++ "reportlab" ++ aposStr],
       none)
  | LibState.available => runMain g

/-- The three story elements one git section contributes: its heading, its
table (built with the default widths and no dangerous commands) and a
spacer. -/
def sectionBlock (s : String × List (String × String)) : List StoryElem :=
  [StoryElem.paragraph "SectionHeader" s.1,
   StoryElem.table (gitTableData [] s.2) gitDefaultColWidths 0,
   StoryElem.spacer]

/-- Assembling a document from a list of (title, rows) sections by repeated
create_command_table calls, as generate_pdf does. -/
def buildSections (sections : List (String × List (String × String)))
    (story : List StoryElem) : List StoryElem :=
  sections.foldl
    (fun st s => gitCreateCommandTable st s.1 s.2 gitDefaultColWidths []) story

/-- Whether a story element is a table. -/
def isTable : StoryElem → Bool
  | StoryElem.table _ _ _ => true
  | _ => false

/-- Whether a story element is a section-heading paragraph. -/
def isSectionHeading : StoryElem → Bool
  | StoryElem.paragraph st _ => st = "SectionHeader"
  | _ => false

/-- Number of tables in a story. -/
def countTables (story : List StoryElem) : Nat :=
  story.countP isTable

/-- Scans a story remembering the previous element; true when every table in
the remainder is immediately preceded by a section heading. -/
def adjHeaded : StoryElem → List StoryElem → Bool
  | _, [] => true
  | prev, e :: rest => (!(isTable e) || isSectionHeading prev) && adjHeaded e rest

/-- True when every table of the story is immediately preceded by a section
heading (in particular the story does not begin with a table). -/
def tablesHeaded : List StoryElem → Bool
  | [] => true
  | e :: rest => !(isTable e) && adjHeaded e rest

/-- The two rows of the C6 scenario. -/
def c6commands : List (String × String) :=
  [("git init", "Initialize a new repository"),
   ("git status", "Show working tree status")]

end CheatSheets

namespace CheatSheets

theorem escapeChar_all_noMarkup (a : Char) : (escapeChar a).all noMarkup = true := by
  unfold escapeChar
  split
  · decide
  split
  · decide
  split
  · decide
  split
  · decide
  split
  · decide
  rename_i h1 h2 h3 h4 h5
  simp [noMarkup, List.all, h2, h3, h4, h5]

theorem noMarkup_of_mem_escapeChar {c a : Char} (h : c ∈ escapeChar a) :
    noMarkup c = true :=
  List.all_eq_true.mp (escapeChar_all_noMarkup a) c h

theorem flatMap_escapeChar_of_plain {l : List Char}
    (h : ∀ c ∈ l, specialChar c = false) : l.flatMap escapeChar = l := by
  induction l with
  | nil => rfl
  | cons a t ih =>
      have ha := h a (by simp)
      simp only [specialChar, Bool.or_eq_false_iff, decide_eq_false_iff_not] at ha
      obtain ⟨⟨⟨⟨g1, g2⟩, g3⟩, g4⟩, g5⟩ := ha
      have hesc : escapeChar a = [a] := by
        unfold escapeChar
        simp [g1, g2, g3, g4, g5]
      have ht : ∀ c ∈ t, specialChar c = false := fun c hc => h c (by simp [hc])
      simp [List.flatMap_cons, hesc, ih ht]

theorem buildSections_eq (sections : List (String × List (String × String)))
    (st : List StoryElem) :
    buildSections sections st = st ++ sections.flatMap sectionBlock := by
  induction sections generalizing st with
  | nil => simp [buildSections]
  | cons s ss ih =>
      have h1 : buildSections (s :: ss) st =
          buildSections ss (st ++ sectionBlock s) := rfl
      rw [h1, ih, List.flatMap_cons, List.append_assoc]

theorem adjHeaded_of_tablesHeaded {l : List StoryElem}
    (h : tablesHeaded l = true) (prev : StoryElem) : adjHeaded prev l = true := by
  cases l with
  | nil => rfl
  | cons e rest =>
      simp only [tablesHeaded, Bool.and_eq_true] at h
      simp [adjHeaded, h.1, h.2]

theorem length_flatMap_sectionBlock (ss : List (String × List (String × String))) :
    (ss.flatMap sectionBlock).length = 3 * ss.length := by
  induction ss with
  | nil => rfl
  | cons s tl ih =>
      rw [List.flatMap_cons, List.length_append, ih]
      simp only [sectionBlock, List.length_cons, List.length_nil, List.length_cons]
      omega

theorem countTables_flatMap_sectionBlock (ss : List (String × List (String × String))) :
    countTables (ss.flatMap sectionBlock) = ss.length := by
  induction ss with
  | nil => rfl
  | cons s tl ih =>
      have hb : List.countP isTable (sectionBlock s) = 1 := by
        simp [sectionBlock, List.countP_cons, isTable, List.countP_nil]
      simp only [countTables] at ih ⊢
      rw [List.flatMap_cons, List.countP_append, hb, ih, List.length_cons]
      omega

theorem tablesHeaded_flatMap (ss : List (String × List (String × String))) :
    tablesHeaded (ss.flatMap sectionBlock) = true := by
  induction ss with
  | nil => rfl
  | cons s tl ih =>
      show tablesHeaded (sectionBlock s ++ tl.flatMap sectionBlock) = true
      simp only [sectionBlock, List.cons_append, List.nil_append]
      simp [tablesHeaded, adjHeaded, isTable, isSectionHeading,
            adjHeaded_of_tablesHeaded ih]

/-- C1: the git and Laravel command tables hold exactly one data row per input
pair and declare no header row, while the flexbox comparison table holds the
declared header row followed by exactly one data row per property triple. -/
theorem C1_table_row_counts (dangerousCommands : List String)
    (commands : List (String × String)) (rows : List LRow)
    (properties : List (String × String × String)) :
    (gitTableData dangerousCommands commands).length = commands.length ∧
    (laravelTableData rows).length = rows.length ∧
    (flexboxTableData properties).length = properties.length + 1 ∧
    (flexboxTableData properties).head? = some flexboxHeaderRow ∧
    (flexboxTableData properties).tail = properties.map flexboxRow := by
  refine ⟨?_, ?_, ?_, rfl, rfl⟩
  · simp [gitTableData]
  · simp [laravelTableData]
  · simp [flexboxTableData]

/-- C2 counterexample: the git generator's create_command_table interpolates
the raw label into the cell markup without escaping, so a label containing
the text of a script tag reaches the rendering layer raw, not escaped. -/
theorem C2_counterexample_git_raw :
    containsSub "<script>".data (gitCell [] "<script>").data = true ∧
    containsSub "&lt;script&gt;".data (gitCell [] "<script>").data = false := by
  decide

/-- C2 amended: only the Laravel generator escapes row text. Its cells are
built from html.escape of the label and description; escaped output contains
no raw markup delimiter, and a script-tag label escapes to its entity form,
which the built cell then contains. -/
theorem C2_amended_laravel_escapes (cmd desc : String) :
    laravelCells (LRow.two cmd desc) =
      [fontWrap "#3498DB" (htmlEscape cmd), htmlEscape desc] ∧
    (∀ c ∈ (htmlEscape cmd).data, noMarkup c = true) ∧
    htmlEscape "<script>" = "&lt;script&gt;" ∧
    containsSub "&lt;script&gt;".data
      (fontWrap "#3498DB" (htmlEscape "<script>")).data = true := by
  refine ⟨rfl, ?_, rfl, by decide⟩
  intro c hc
  have hc2 : c ∈ cmd.data.flatMap escapeChar := hc
  rw [List.mem_flatMap] at hc2
  obtain ⟨a, _, ha⟩ := hc2
  exact noMarkup_of_mem_escapeChar ha

/-- C3 counterexample: html.escape is not idempotent; escaping an ampersand
twice double-escapes it. -/
theorem C3_counterexample_double_escape :
    htmlEscape "&" = "&amp;" ∧
    htmlEscape (htmlEscape "&") = "&amp;amp;" ∧
    htmlEscape (htmlEscape "&") ≠ htmlEscape "&" := by
  refine ⟨rfl, rfl, by decide⟩

/-- C3 amended: escaping is idempotent only on text free of
markup-significant characters, where html.escape is the identity; on any text
containing an escapable character a second pass double-escapes. -/
theorem C3_amended_idempotent_on_plain (s : String)
    (h : ∀ c ∈ s.data, specialChar c = false) :
    htmlEscape (htmlEscape s) = htmlEscape s := by
  have hfix : htmlEscape s = s := by
    unfold htmlEscape
    rw [flatMap_escapeChar_of_plain h]
  simp only [hfix]

/-- Witness for the amended C3 at a concrete plain string. -/
theorem C3_amended_witness :
    (∀ c ∈ ("plain text".data), specialChar c = false) ∧
    htmlEscape (htmlEscape "plain text") = htmlEscape "plain text" :=
  ⟨by decide, C3_amended_idempotent_on_plain "plain text" (by decide)⟩

/-- C4 counterexample: the git generator's default two-column widths are the
fixed pair of 7 cm and 8 cm, not the 60/40 split of the available content
width that the Laravel generator computes. -/
theorem C4_counterexample_git_default_widths :
    gitDefaultColWidths ≠
      [(A4width - 2 * cmPt) * 0.6, (A4width - 2 * cmPt) * 0.4] := by
  have h : (7 * cmPt) ≠ (A4width - 2 * cmPt) * 0.6 := by
    norm_num [cmPt, A4width]
  simp [gitDefaultColWidths, h]

/-- C4 amended: only the Laravel generator defaults to the 60/40 split of the
available content width (its two widths sum to the page width minus both
margins); the git generator's default is the fixed pair 7 cm and 8 cm, a
7:15 rather than 3:5 proportion of its total, and the flexbox three-column
layout uses the fixed, roughly equal widths 6 cm, 5 cm and 6 cm. -/
theorem C4_amended_default_widths :
    laravelDefaultColWidths =
      [(A4width - 2 * cmPt) * 0.6, (A4width - 2 * cmPt) * 0.4] ∧
    laravelDefaultColWidths.sum = A4width - 2 * cmPt ∧
    gitDefaultColWidths = [7 * cmPt, 8 * cmPt] ∧
    gitDefaultColWidths.headI * 15 = gitDefaultColWidths.sum * 7 ∧
    gitDefaultColWidths.headI * 5 ≠ gitDefaultColWidths.sum * 3 ∧
    flexboxColWidths = [6 * cmPt, 5 * cmPt, 6 * cmPt] := by
  refine ⟨rfl, ?_, rfl, ?_, ?_, rfl⟩
  · simp [laravelDefaultColWidths]
    norm_num [cmPt, A4width]
  · simp [gitDefaultColWidths]
    ring
  · simp [gitDefaultColWidths]
    norm_num [cmPt]

/-- C6: the scenario section with the two rows git init and git status and no
page break yields exactly the heading, a two-row table carrying those two
label/description pairs in order, and a spacer; no page-break marker is
produced. -/
theorem C6_two_row_scenario :
    gitCreateCommandTable [] "Basic Git Operations" c6commands
        gitDefaultColWidths [] =
      [StoryElem.paragraph "SectionHeader" "Basic Git Operations",
       StoryElem.table
         [[fontWrap "#FF6B35" "git init", "Initialize a new repository"],
          [fontWrap "#FF6B35" "git status", "Show working tree status"]]
         gitDefaultColWidths 0,
       StoryElem.spacer] ∧
    (gitTableData [] c6commands).length = 2 ∧
    StoryElem.pageBreak ∉
      gitCreateCommandTable [] "Basic Git Operations" c6commands
        gitDefaultColWidths [] := by
  refine ⟨rfl, rfl, ?_⟩
  intro hmem
  simp [gitCreateCommandTable, gitTableData, c6commands] at hmem

/-- C7: main's except ImportError handler prints the pip install hint and its
generic handler prints the underlying detail, both without producing output
and without retrying; but under CPython module semantics the reportlab
imports at module top run before main, so an actually missing reportlab
aborts with an uncaught traceback in which the hint never appears. -/
theorem C7_missing_library_bypasses_hint :
    "   pip install reportlab" ∈
      (runMain (GenResult.libError "No module named reportlab")).1 ∧
    (runMain (GenResult.libError "No module named reportlab")).2 = none ∧
    (∀ e : String, (runMain (GenResult.otherError e)).1 =
      ["❌ Error generating PDF: " ++ e] ∧
      (runMain (GenResult.otherError e)).2 = none) ∧
    (∀ g : GenResult,
      "   pip install reportlab" ∉ (programRun LibState.missing g).1 ∧
      (programRun LibState.missing g).2 = none) ∧
    (∀ g : GenResult, (runMain g).2.isSome = true ↔ ∃ f, g = GenResult.ok f) := by
  refine ⟨by decide, rfl, fun e => ⟨rfl, rfl⟩, ?_, ?_⟩
  · intro g
    refine ⟨?_, rfl⟩
    have h0 : programRun LibState.missing g =
        programRun LibState.missing (GenResult.ok "x") := rfl
    rw [h0]
    decide
  · intro g
    cases g with
    | ok f => simp [runMain]
    | libError e => simp [runMain]
    | otherError e => simp [runMain]

/-- C8: in the git generator a row's label is colored with the warning red
exactly when some entry of the dangerous-commands list occurs as a substring
of the label, with the default orange otherwise; with the list omitted
(defaulted to empty) every row gets the default orange. -/
theorem C8_dangerous_command_color (dangerousCommands : List String) (cmd : String) :
    (gitRowColor dangerousCommands cmd = "#E74C3C" ↔
      ∃ d ∈ dangerousCommands, containsSub d.data cmd.data = true) ∧
    (gitRowColor dangerousCommands cmd = "#FF6B35" ↔
      ¬ ∃ d ∈ dangerousCommands, containsSub d.data cmd.data = true) ∧
    gitRowColor [] cmd = "#FF6B35" ∧
    gitCell dangerousCommands cmd = fontWrap (gitRowColor dangerousCommands cmd) cmd := by
  have hne : ("#E74C3C" : String) ≠ "#FF6B35" := by decide
  cases hb : dangerousCommands.any (fun danger => containsSub danger.data cmd.data) with
  | false =>
      have hnot : ¬ ∃ d ∈ dangerousCommands, containsSub d.data cmd.data = true := by
        rw [← List.any_eq_true, hb]
        exact Bool.false_ne_true
      refine ⟨?_, ?_, rfl, rfl⟩
      · simp [gitRowColor, hb, hnot, hne.symm]
      · simp [gitRowColor, hb, hnot]
  | true =>
      have hex : ∃ d ∈ dangerousCommands, containsSub d.data cmd.data = true :=
        List.any_eq_true.mp hb
      refine ⟨?_, ?_, rfl, rfl⟩
      · simp [gitRowColor, hb, hex]
      · simp [gitRowColor, hb, hex, hne]

/-- C9: a Laravel 2-tuple row renders exactly as the 3-tuple row with the
default blue appended, and every row's cells are a function of its
(command, description, color) triple alone. -/
theorem C9_row_shape_equivalence (cmd desc : String) :
    laravelCells (LRow.two cmd desc) =
      laravelCells (LRow.three cmd desc "#3498DB") ∧
    (∀ r : LRow, laravelCells r = cellsOfTriple (lrowTriple r)) := by
  refine ⟨rfl, ?_⟩
  intro r
  cases r <;> rfl

/-- C10: every section-table build appends exactly the heading paragraph, the
table and a spacer, in that order; assembling k sections therefore yields a
story of 3k elements containing exactly k tables, each immediately preceded
by its heading; the Laravel and flexbox builders likewise append exactly
three elements. -/
theorem C10_section_block_structure
    (sections : List (String × List (String × String))) :
    buildSections sections [] = sections.flatMap sectionBlock ∧
    (buildSections sections []).length = 3 * sections.length ∧
    countTables (buildSections sections []) = sections.length ∧
    tablesHeaded (buildSections sections []) = true ∧
    (∀ st title rows w, (laravelCreateCommandTable st title rows w).length =
      st.length + 3) ∧
    (∀ st title props, (flexboxCreateComparisonTable st title props).length =
      st.length + 3) := by
  have he : buildSections sections [] = sections.flatMap sectionBlock := by
    rw [buildSections_eq, List.nil_append]
  refine ⟨he, ?_, ?_, ?_, ?_, ?_⟩
  · rw [he]
    exact length_flatMap_sectionBlock sections
  · rw [he]
    exact countTables_flatMap_sectionBlock sections
  · rw [he]
    exact tablesHeaded_flatMap sections
  · intro st title rows w
    simp [laravelCreateCommandTable]
  · intro st title props
    simp [flexboxCreateComparisonTable]

end CheatSheets
